import Mathlib

/-! A shallow embedding of the company-kb-chatbot retrieval pipeline.

The Python sources embedded here are `src/document_processor.py` (chunk
statistics), `src/vector_store.py` (the ChromaDB wrapper) and
`src/chatbot.py` (context formatting, generation error handling and the
chat pipeline).  Python strings are modelled as Lean `String`s; where Python
operates on a string as a character sequence (`split`), the model works on
the underlying `List Char`.  The two external collaborators are modelled as
black boxes through the contracts the code relies on: the ChromaDB engine
ranks the stored entries by an engine-computed distance for the query and
returns the closest `n`, and the Ollama generation process either completes
with an exit code and captured output streams, times out, or fails with an
exception message.
-/

namespace CompanyKB

/-- Python single-character `str.split`: splitting the empty string yields a
single empty token, and every occurrence of the separator starts a new token,
so a string of `k` separators yields `k + 1` tokens. -/
def pySplit (sep : Char) : List Char → List (List Char)
  | [] => [[]]
  | x :: xs =>
    let r := pySplit sep xs
    if x = sep then [] :: r
    else
      match r with
      | [] => [[x]]
      | h :: t => (x :: h) :: t

/-- Python `metadata.get(key, default)` on a metadata dictionary, modelled as
an association list. -/
def metaGet (m : List (String × String)) (key dflt : String) : String :=
  match m.find? (fun p => p.1 == key) with
  | some p => p.2
  | none => dflt

/-- A document chunk (a langchain document): page content plus metadata. -/
structure Chunk where
  page_content : String
  metadata : List (String × String)
deriving DecidableEq

/-- A value of the statistics dictionary returned by
`DocumentProcessor.get_stats`: an integer or a list of source names. -/
inductive StatValue where
  | num (n : Nat)
  | strList (l : List String)
deriving DecidableEq

namespace DocumentProcessor

/-- `DocumentProcessor.get_stats` (src/document_processor.py lines 107-129).
The returned Python dict is modelled as a list of key/value pairs in
insertion order.  The non-empty branch computes the source list as
`list(set(...))`, whose iteration order is implementation-defined in Python;
it is modelled with `List.dedup` (no claim depends on that order). -/
def get_stats (chunks : List Chunk) : List (String × StatValue) :=
  if chunks.isEmpty then
    [("total_chunks", .num 0), ("avg_chunk_size", .num 0), ("sources", .strList [])]
  else
    let total_chars := (chunks.map (fun c => c.page_content.length)).sum
    let avg_size := total_chars / chunks.length
    let sources := (chunks.map (fun c => metaGet c.metadata "source" "unknown")).dedup
    [("total_chunks", .num chunks.length), ("avg_chunk_size", .num avg_size),
      ("total_characters", .num total_chars), ("sources", .strList sources)]

end DocumentProcessor

/-- One indexed entry of the ChromaDB collection: the assigned id, the chunk
text and the chunk metadata. -/
structure Entry where
  id : String
  document : String
  metadata : List (String × String)
deriving DecidableEq

/-- The vector store: the collection is modelled by the ordered list of
entries it holds. -/
structure VectorStore where
  entries : List Entry
deriving DecidableEq

/-- The identifiers `VectorStore.add_documents` assigns to one batch of
chunks (src/vector_store.py line 61): the i-th chunk of the batch receives
the id `doc_` followed by the decimal rendering of `i`, restarting from
`doc_0` on every call. -/
def assigned_ids (chunks : List Chunk) : List String :=
  (List.range chunks.length).map (fun i => "doc_" ++ Nat.repr i)

/-- `VectorStore.add_documents` (src/vector_store.py lines 45-77): no-op on an
empty batch; otherwise pairs each chunk with its assigned id and adds
everything to the collection.  The Python loop adds slices of at most 100
chunks per `collection.add` call; successive slices concatenate, so the net
effect on the collection is a single append of the whole batch. -/
def VectorStore.add_documents (store : VectorStore) (chunks : List Chunk) :
    VectorStore :=
  if chunks.isEmpty then store
  else
    { entries := store.entries ++
        ((assigned_ids chunks).zip chunks).map
          (fun p => { id := p.1, document := p.2.page_content, metadata := p.2.metadata }) }

/-- The result dictionary of `collection.query` for a single query text: each
field holds one inner list per query text, so exactly one here. -/
structure QueryResult where
  documents : List (List String)
  metadatas : List (List (List (String × String)))
  distances : List (List ℚ)

/-- Model of the external ChromaDB `collection.query` call for one query text
(the engine is a black box with the contract stated in the spec): it ranks
the stored entries by the engine-computed distance to the query, ascending,
and returns the closest `n`.  `dist` is the engine's distance function for
the query; cosine distances are modelled as rationals. -/
def queryCollection (entries : List Entry) (dist : Entry → ℚ) (n : Nat) :
    QueryResult :=
  let ranked := List.insertionSort (fun a b => dist a ≤ dist b) entries
  let top := ranked.take n
  { documents := [top.map (fun e => e.document)],
    metadatas := [top.map (fun e => e.metadata)],
    distances := [top.map dist] }

/-- `VectorStore.search` (src/vector_store.py lines 79-95): queries the
collection with `n_results` clamped to the current count.  `embed` stands for
the engine's embedding step: it maps the query text to the distance function
the engine uses over stored entries. -/
def VectorStore.search (store : VectorStore) (embed : String → Entry → ℚ)
    (query : String) (n_results : Nat) : QueryResult :=
  queryCollection store.entries (embed query) (min n_results store.entries.length)

/-- `VectorStore.get_count` (src/vector_store.py lines 97-104). -/
def VectorStore.get_count (store : VectorStore) : Nat :=
  store.entries.length

/-- Python `list(dict.fromkeys(sources))` — duplicate removal keeping the
first occurrence — via the list of keys already seen. -/
def fromKeysAux : List String → List String → List String
  | [], _ => []
  | x :: xs, seen =>
    if x ∈ seen then fromKeysAux xs seen else x :: fromKeysAux xs (x :: seen)

/-- Python `list(dict.fromkeys(l))`. -/
def dictFromKeys (l : List String) : List String :=
  fromKeysAux l []

/-- The `source_name` computation of `CompanyKBChatbot.format_context`
(src/chatbot.py line 83): last `/`-separated token, then last `\\`-separated
token of that, guarded by a containment test on the whole source string. -/
def source_name_of (source : String) : String :=
  if source.data.contains '/' || source.data.contains '\\' then
    String.mk ((pySplit '\\' ((pySplit '/' source.data).getLastD [])).getLastD [])
  else source

/-- One entry of the conversation history appended by `chat`. -/
structure ConversationTurn where
  question : String
  answer : String
  sources : List String
deriving DecidableEq

/-- The structured response returned by `chat`. -/
structure ChatResult where
  answer : String
  sources : List String
deriving DecidableEq

/-- The chatbot state: configured model name, the vector store handle and the
append-only conversation history. -/
structure CompanyKBChatbot where
  model : String
  vector_store : VectorStore
  conversation_history : List ConversationTurn

/-- `CompanyKBChatbot.format_context` (src/chatbot.py lines 64-94): renders
each retrieved chunk with a numbered label and its short source name, joins
the parts with a blank-line separator, and deduplicates source names keeping
first occurrences.  The Python loop builds `context_parts` and `sources` in
one pass over `zip` of the first documents list and the first metadatas list;
the two maps here read the same pairs. -/
def CompanyKBChatbot.format_context (search_results : QueryResult) :
    String × List String :=
  let docs := search_results.documents.headD []
  let metas := search_results.metadatas.headD []
  let pairs := docs.zip metas
  let context_parts := pairs.enum.map (fun p =>
    "[Document " ++ Nat.repr (p.1 + 1) ++ " - "
      ++ source_name_of (metaGet p.2.2 "source" "Unknown") ++ "]:\n" ++ p.2.1)
  let sources := pairs.map (fun p => source_name_of (metaGet p.2 "source" "Unknown"))
  (String.intercalate "\n\n" context_parts, dictFromKeys sources)

/-- The whitespace characters Python `str.strip` removes. -/
def pyIsSpace (c : Char) : Bool :=
  c = ' ' || c = '\t' || c = '\n' || c = '\r' || c = '\x0b' || c = '\x0c'

/-- Python `str.strip`: drop whitespace from both ends. -/
def pyStrip (l : List Char) : List Char :=
  ((l.dropWhile pyIsSpace).reverse.dropWhile pyIsSpace).reverse

/-- Scan for Python `str.replace`, bounded by the remaining length.  The
initial call passes the list length, which the scan never outruns, so the
bound never bites; it only makes the recursion structural. -/
def pyReplaceAux (pat repl : List Char) : Nat → List Char → List Char
  | _, [] => []
  | 0, l => l
  | fuel + 1, x :: xs =>
    if pat.isPrefixOf (x :: xs) then
      repl ++ pyReplaceAux pat repl fuel ((x :: xs).drop pat.length)
    else
      x :: pyReplaceAux pat repl fuel xs

/-- Python `str.replace` for a non-empty pattern: replace every
non-overlapping occurrence, scanning left to right. -/
def pyReplace (pat repl l : List Char) : List Char :=
  pyReplaceAux pat repl l.length l

/-- Outcome of the external `ollama run` subprocess call: completion with an
exit code and captured output streams, a timeout, or an exception raised by
the process machinery. -/
inductive ProcOutcome where
  | completed (returncode : Int) (stdout : String) (stderr : String)
  | timedOut
  | raised (msg : String)

/-- `CompanyKBChatbot.generate_response` (src/chatbot.py lines 96-127) as a
function of the subprocess outcome: every outcome maps to an answer string,
never an exception.  The output post-processing is Python
`result.stdout.strip()` followed by `.replace` of the session-termination
marker and a final `.strip()`. -/
def CompanyKBChatbot.generate_response (outcome : ProcOutcome) : String :=
  match outcome with
  | .completed returncode stdout stderr =>
    if returncode ≠ 0 then "Error generating response: " ++ stderr
    else
      let response := String.mk (pyStrip (pyReplace "/bye".data [] (pyStrip stdout.data)))
      if response = "" then "No response generated. Please try again."
      else response
  | .timedOut => "Response timed out after 2 minutes. Please try a simpler question."
  | .raised msg => "Error: " ++ msg

/-- `CompanyKBChatbot.search_knowledge_base` (src/chatbot.py lines 51-62). -/
def CompanyKBChatbot.search_knowledge_base (bot : CompanyKBChatbot)
    (embed : String → Entry → ℚ) (query : String) (n_results : Nat := 3) :
    QueryResult :=
  bot.vector_store.search embed query n_results

/-- `CompanyKBChatbot.chat` (src/chatbot.py lines 129-165).  `gen` stands for
the generation step applied to the live subprocess: it maps the question and
the formatted context to the answer string returned by
`generate_response`. -/
def CompanyKBChatbot.chat (bot : CompanyKBChatbot) (embed : String → Entry → ℚ)
    (gen : String → String → String) (user_question : String) :
    ChatResult × CompanyKBChatbot :=
  let search_results := bot.search_knowledge_base embed user_question 3
  if (search_results.documents.headD []).isEmpty then
    ({ answer := "I couldn\x27t find any relevant information in the company documents.",
       sources := [] }, bot)
  else
    let cs := CompanyKBChatbot.format_context search_results
    let answer := gen user_question cs.1
    ({ answer := answer, sources := cs.2 },
      { bot with conversation_history := bot.conversation_history ++
          [{ question := user_question, answer := answer, sources := cs.2 }] })

/-- A freshly initialized chatbot handle over an empty store; a concrete
input for witnesses. -/
def emptyBot : CompanyKBChatbot :=
  { model := "llama2", vector_store := { entries := [] },
    conversation_history := [] }

/-! ### Spec-side definitions

Definitions written from the words of the claims, to be compared with the
definitions embedded from the source.  They are used only to state and prove
amended claims. -/

/-- The labeled rendering of one retrieved chunk as the amended claim C5
states it: document number, short source name, then the chunk text on the
following line. -/
def renderDocLabel (i : Nat) (name text : String) : String :=
  "[Document " ++ Nat.repr i ++ " - " ++ name ++ "]:\n" ++ text

/-- The final path segment of a source string under both forward- and
back-slash separators (claim C5 wording), as the last `/`-token followed by
the last `\\`-token, with no containment guard. -/
def finalPathSegment (source : String) : String :=
  String.mk ((pySplit '\\' ((pySplit '/' source.data).getLastD [])).getLastD [])

/-- Numbered rendering of (chunk text, short source name) pairs, counting
from the given index. -/
def numberFrom : Nat → List (String × String) → List String
  | _, [] => []
  | i, p :: rest => renderDocLabel i p.2 p.1 :: numberFrom (i + 1) rest

/-- Duplicate removal keeping the first occurrence, written as the claims
phrase it: keep the head, drop its later duplicates, recurse. -/
def dedupKeepFirst : List String → List String
  | [] => []
  | x :: xs => x :: dedupKeepFirst (xs.filter (fun y => y != x))
termination_by l => l.length
decreasing_by
  simp only [List.length_cons]
  exact Nat.lt_succ_of_le (List.length_filter_le _ _)

/-- `formatContext` as amended claim C5 describes it: number the retrieved
chunks from 1, render each with `renderDocLabel`, join with blank-line
separators; the source list is the short source names with duplicates
removed keeping first occurrences. -/
def formatContextAmended (search_results : QueryResult) : String × List String :=
  let docs := search_results.documents.headD []
  let metas := search_results.metadatas.headD []
  let withNames := (docs.zip metas).map
    (fun p => (p.1, finalPathSegment (metaGet p.2 "source" "Unknown")))
  (String.intercalate "\n\n" (numberFrom 1 withNames),
    dedupKeepFirst (withNames.map (fun p => p.2)))

/-! ### Helper lemmas -/

/-- Splitting on a character that does not occur returns the whole string as
the single token. -/
theorem pySplit_of_not_mem {c : Char} {l : List Char} (h : c ∉ l) :
    pySplit c l = [l] := by
  induction l with
  | nil => rfl
  | cons x xs ih =>
    simp only [List.mem_cons, not_or] at h
    have hx : ¬ x = c := fun e => h.1 e.symm
    simp [pySplit, hx, ih h.2]

/-- The guarded split chain of the source equals the unguarded final path
segment: when neither separator occurs, both give back the whole string. -/
theorem source_name_of_eq_finalPathSegment (s : String) :
    source_name_of s = finalPathSegment s := by
  unfold source_name_of finalPathSegment
  by_cases h : (s.data.contains '/' || s.data.contains '\\') = true
  · rw [if_pos h]
  · rw [if_neg h]
    simp only [Bool.or_eq_true, not_or] at h
    have h1 : '/' ∉ s.data := by simpa using h.1
    have h2 : '\\' ∉ s.data := by simpa using h.2
    rw [pySplit_of_not_mem h1]
    have e1 : (([s.data] : List (List Char)).getLastD []) = s.data := by simp
    rw [e1, pySplit_of_not_mem h2, e1]

/-- The enumerated rendering loop of `format_context` agrees with the
spec-side numbered rendering, for every starting index. -/
theorem enum_parts_eq_numberFrom (pairs : List (String × List (String × String))) :
    ∀ n, (List.enumFrom n pairs).map (fun p =>
        "[Document " ++ Nat.repr (p.1 + 1) ++ " - "
          ++ source_name_of (metaGet p.2.2 "source" "Unknown") ++ "]:\n" ++ p.2.1)
      = numberFrom (n + 1) (pairs.map
          (fun p => (p.1, finalPathSegment (metaGet p.2 "source" "Unknown")))) := by
  induction pairs with
  | nil => intro n; rfl
  | cons q rest ih =>
    intro n
    simp only [List.enumFrom, List.map_cons, numberFrom, renderDocLabel, List.cons.injEq]
    constructor
    · rw [source_name_of_eq_finalPathSegment]
    · exact ih (n + 1)

/-- The seen-set formulation of `dict.fromkeys` computes first-occurrence
deduplication of the elements not yet seen. -/
theorem fromKeysAux_eq_dedupKeepFirst (l : List String) :
    ∀ seen, fromKeysAux l seen
      = dedupKeepFirst (l.filter (fun y => decide (y ∉ seen))) := by
  induction l with
  | nil => intro seen; simp [fromKeysAux, dedupKeepFirst]
  | cons x xs ih =>
    intro seen
    by_cases hx : x ∈ seen
    · rw [fromKeysAux, if_pos hx, List.filter_cons, ih seen]
      simp [hx]
    · rw [fromKeysAux, if_neg hx, ih (x :: seen), List.filter_cons]
      have hkeep : decide (x ∉ seen) = true := by simp [hx]
      rw [if_pos hkeep, dedupKeepFirst]
      congr 1
      rw [List.filter_filter]
      apply congrArg
      apply List.filter_congr
      intro a _
      by_cases h1 : a = x <;> by_cases h2 : a ∈ seen <;> simp [h1, h2]

/-- `list(dict.fromkeys(l))` is first-occurrence deduplication. -/
theorem dictFromKeys_eq_dedupKeepFirst (l : List String) :
    dictFromKeys l = dedupKeepFirst l := by
  rw [dictFromKeys, fromKeysAux_eq_dedupKeepFirst]
  congr 1
  simp

/-! ### Claim theorems -/

/-- C1: when retrieval returns no documents, `chat` returns the fixed
no-relevant-information answer with an empty source list, and the whole
result is independent of the generation function — generation is not
invoked on the short-circuit path. -/
theorem chat_empty_retrieval_fixed_answer (bot : CompanyKBChatbot)
    (embed : String → Entry → ℚ) (g1 g2 : String → String → String)
    (q : String)
    (h : (bot.vector_store.search embed q 3).documents.headD [] = []) :
    (bot.chat embed g1 q).1.answer
        = "I couldn\x27t find any relevant information in the company documents."
    ∧ (bot.chat embed g1 q).1.sources = []
    ∧ bot.chat embed g1 q = bot.chat embed g2 q := by
  have h' : (bot.vector_store.search embed q 3).documents.head?.getD [] = [] := by
    simpa using h
  simp [CompanyKBChatbot.chat, CompanyKBChatbot.search_knowledge_base, h']

/-- C1 witness: the short circuit at a concrete empty store, with two
different generation functions. -/
theorem chat_empty_retrieval_fixed_answer_witness :
    (emptyBot.chat (fun _ _ => (0 : ℚ)) (fun _ _ => "genLeft") "anything").1.answer
        = "I couldn\x27t find any relevant information in the company documents."
    ∧ (emptyBot.chat (fun _ _ => (0 : ℚ)) (fun _ _ => "genLeft") "anything").1.sources = []
    ∧ emptyBot.chat (fun _ _ => (0 : ℚ)) (fun _ _ => "genLeft") "anything"
      = emptyBot.chat (fun _ _ => (0 : ℚ)) (fun _ _ => "genRight") "anything" :=
  chat_empty_retrieval_fixed_answer _ _ _ _ _ rfl

/-- C2: `search` returns exactly `min` of the requested count and the store
count, ordered by ascending distance, i.e. descending similarity. -/
theorem search_result_length_and_sorted (store : VectorStore)
    (embed : String → Entry → ℚ) (q : String) (k : Nat) :
    ((store.search embed q k).documents.headD []).length = min k store.get_count
    ∧ List.Sorted (fun a b => a ≤ b)
        ((store.search embed q k).distances.headD []) := by
  constructor
  · simp [VectorStore.search, queryCollection, VectorStore.get_count,
      List.length_take, List.length_insertionSort]
  · have hs : List.Sorted (fun a b : Entry => embed q a ≤ embed q b)
        (List.insertionSort (fun a b => embed q a ≤ embed q b) store.entries) := by
      haveI : IsTotal Entry (fun a b => embed q a ≤ embed q b) :=
        ⟨fun a b => le_total (embed q a) (embed q b)⟩
      haveI : IsTrans Entry (fun a b => embed q a ≤ embed q b) :=
        ⟨fun a b c hab hbc => le_trans hab hbc⟩
      exact List.sorted_insertionSort _ _
    simp only [VectorStore.search, queryCollection, List.headD_cons]
    exact List.pairwise_map.2 (List.Pairwise.sublist (List.take_sublist _ _) hs)

/-- C3: searching an empty store yields the empty result; the model is a
total function, so no exception can be raised on this path. -/
theorem search_empty_store_empty_result (store : VectorStore)
    (embed : String → Entry → ℚ) (q : String) (k : Nat)
    (h : store.get_count = 0) :
    (store.search embed q k).documents.headD [] = []
    ∧ (store.search embed q k).metadatas.headD [] = []
    ∧ (store.search embed q k).distances.headD [] = [] := by
  have he : store.entries = [] := List.length_eq_zero.1 h
  simp [VectorStore.search, queryCollection, he]

/-- C3 witness: a concrete empty store with a concrete query. -/
theorem search_empty_store_empty_result_witness :
    (({ entries := [] } : VectorStore).search
        (fun _ _ => (0 : ℚ)) "anything" 5).documents.headD [] = []
    ∧ (({ entries := [] } : VectorStore).search
        (fun _ _ => (0 : ℚ)) "anything" 5).metadatas.headD [] = []
    ∧ (({ entries := [] } : VectorStore).search
        (fun _ _ => (0 : ℚ)) "anything" 5).distances.headD [] = [] :=
  search_empty_store_empty_result _ _ _ _ rfl

/-- C4 counterexample: two successive one-chunk `add_documents` calls assign
the identifier `doc_0` to both batches, so identifiers are not unique across
the two insertion batches. -/
theorem add_documents_id_collision_cex :
    assigned_ids [{ page_content := "alpha", metadata := [("source", "a.txt")] }]
        = ["doc_0"]
    ∧ assigned_ids [{ page_content := "beta", metadata := [("source", "b.txt")] }]
        = ["doc_0"] := by
  constructor <;> decide

/-- C4 (amended): identifier assignment restarts at `doc_0` on every
`add_documents` call, so any two nonempty insertion batches are assigned a
common identifier — cross-batch uniqueness fails whenever both batches are
nonempty, and holds only when the store is rebuilt from empty. -/
theorem assigned_ids_collide_across_batches (b1 b2 : List Chunk)
    (h1 : b1 ≠ []) (h2 : b2 ≠ []) :
    ∃ s, s ∈ assigned_ids b1 ∧ s ∈ assigned_ids b2 := by
  refine ⟨"doc_" ++ Nat.repr 0, ?_, ?_⟩
  · exact List.mem_map_of_mem _ (List.mem_range.2 (List.length_pos.2 h1))
  · exact List.mem_map_of_mem _ (List.mem_range.2 (List.length_pos.2 h2))

/-- C4 witness: the collision at two concrete one-chunk batches. -/
theorem assigned_ids_collide_across_batches_witness :
    ∃ s, s ∈ assigned_ids
        [{ page_content := "alpha", metadata := [("source", "a.txt")] }]
      ∧ s ∈ assigned_ids
        [{ page_content := "beta", metadata := [("source", "b.txt")] }] :=
  assigned_ids_collide_across_batches _ _ (by decide) (by decide)

/-- C5 counterexample: on a concrete one-chunk retrieval result the code
renders the chunk text on the line after the label, so the context text is
not the claimed rendering with the chunk text following the colon on the
same line. -/
theorem format_context_rendering_cex :
    (CompanyKBChatbot.format_context
        { documents := [["hello"]],
          metadatas := [[[("source", "docs/a.txt")]]],
          distances := [[0]] }).1 ≠ "[Document 1 - a.txt]: hello"
    ∧ (CompanyKBChatbot.format_context
        { documents := [["hello"]],
          metadatas := [[[("source", "docs/a.txt")]]],
          distances := [[0]] }).1 = "[Document 1 - a.txt]:\nhello" := by
  constructor <;> decide

/-- C5 (amended): `format_context` returns exactly the claim's pair with the
rendering amended to place the chunk text on the line after its label:
numbered labels counting from 1, short source names given by the final path
segment under both separators, parts joined by blank-line separators, and
sources deduplicated keeping the first occurrence in result order. -/
theorem format_context_eq_amended (sr : QueryResult) :
    CompanyKBChatbot.format_context sr = formatContextAmended sr := by
  simp only [CompanyKBChatbot.format_context, formatContextAmended, Prod.mk.injEq]
  constructor
  · have h := enum_parts_eq_numberFrom
      ((sr.documents.headD []).zip (sr.metadatas.headD [])) 0
    simpa [List.enum] using congrArg (String.intercalate "\n\n") h
  · rw [dictFromKeys_eq_dedupKeepFirst]
    simp [List.map_map, Function.comp_def, source_name_of_eq_finalPathSegment]

/-- C6: `generate_response` maps every subprocess outcome to an answer
string: a non-zero exit yields the error string built from stderr, a timeout
yields the fixed timed-out message, empty output on success yields the fixed
no-response message, and a raised exception yields an error string — nothing
propagates as an exception. -/
theorem generate_response_error_handling :
    (∀ rc out err, rc ≠ 0 →
      CompanyKBChatbot.generate_response (.completed rc out err)
        = "Error generating response: " ++ err)
    ∧ CompanyKBChatbot.generate_response .timedOut
        = "Response timed out after 2 minutes. Please try a simpler question."
    ∧ (∀ err, CompanyKBChatbot.generate_response (.completed 0 "" err)
        = "No response generated. Please try again.")
    ∧ (∀ msg, CompanyKBChatbot.generate_response (.raised msg)
        = "Error: " ++ msg) := by
  refine ⟨?_, rfl, ?_, fun msg => rfl⟩
  · intro rc out err h
    simp [CompanyKBChatbot.generate_response, h]
  · intro err
    rfl

/-- C6 witness: a concrete failed completion. -/
theorem generate_response_error_handling_witness :
    CompanyKBChatbot.generate_response (.completed 1 "out" "boom")
      = "Error generating response: boom" :=
  generate_response_error_handling.1 1 "out" "boom" (by decide)

/-- C9 counterexample: `get_stats` applied to the empty chunk list returns a
record with no `total_characters` field, and its field set differs from the
non-empty case. -/
theorem get_stats_empty_missing_field_cex :
    "total_characters" ∉ (DocumentProcessor.get_stats []).map Prod.fst
    ∧ (DocumentProcessor.get_stats
        [{ page_content := "abcd", metadata := [("source", "a.txt")] }]).map Prod.fst
      ≠ (DocumentProcessor.get_stats []).map Prod.fst := by
  constructor <;> decide

/-- C9 (amended): `get_stats` on the empty chunk list yields exactly the
three all-zero/empty fields total_chunks, avg_chunk_size and sources; the
total_characters field appears only in the non-empty case, whose field set
has the four keys. -/
theorem get_stats_empty_amended :
    DocumentProcessor.get_stats []
      = [("total_chunks", .num 0), ("avg_chunk_size", .num 0),
          ("sources", .strList [])]
    ∧ ∀ c cs, (DocumentProcessor.get_stats (c :: cs)).map Prod.fst
      = ["total_chunks", "avg_chunk_size", "total_characters", "sources"] := by
  refine ⟨rfl, fun c cs => ?_⟩
  simp [DocumentProcessor.get_stats]

/-- C10: on the empty-retrieval short circuit, `chat` leaves the
conversation history unchanged — no turn is appended. -/
theorem chat_empty_retrieval_history_unchanged (bot : CompanyKBChatbot)
    (embed : String → Entry → ℚ) (gen : String → String → String) (q : String)
    (h : (bot.vector_store.search embed q 3).documents.headD [] = []) :
    (bot.chat embed gen q).2.conversation_history = bot.conversation_history := by
  have h' : (bot.vector_store.search embed q 3).documents.head?.getD [] = [] := by
    simpa using h
  simp [CompanyKBChatbot.chat, CompanyKBChatbot.search_knowledge_base, h']

/-- C10 witness: the unchanged history at a concrete empty store. -/
theorem chat_empty_retrieval_history_unchanged_witness :
    (emptyBot.chat (fun _ _ => (0 : ℚ)) (fun _ _ => "answer") "hello").2.conversation_history
      = emptyBot.conversation_history :=
  chat_empty_retrieval_history_unchanged _ _ _ _ rfl

end CompanyKB
